import Mathlib

/-!
Verification of `src/view/scrollable_region.rs` (the `ScrollableRegion`
viewport of the amp editor).

The Rust code is pure arithmetic over `usize` fields, so we embed it
shallowly: `usize` becomes `Nat`, the shared `Arc<Terminal>` handle is
replaced by the only datum the region reads from it (its `height()`),
and every `&mut self` method becomes a function returning the updated
state.  Rust's `checked_sub` is modelled explicitly and its
`unwrap_or(0)` / `match … None => 0` uses become `Option.getD 0`.
-/

/-- Model of Rust `x.checked_sub(y)` on `usize`: `some (x - y)` when the
subtraction does not underflow, `none` otherwise. -/
def checked_sub (x y : Nat) : Option Nat :=
  if y ≤ x then some (x - y) else none

/-- Model of scribe's `LineRange`: a half-open interval `[start, end)`
with `start()`/`end()` accessors, as consumed by the viewport. -/
structure LineRange where
  start : Nat
  «end» : Nat
deriving DecidableEq, Repr

/-- Model of Rust `LineRange::new(start, end)`. -/
def LineRange.new (a b : Nat) : LineRange := ⟨a, b⟩

/-- Model of the `Visibility` enum of `scrollable_region.rs`. -/
inductive Visibility where
  | AboveRegion : Visibility
  | Visible : Nat → Visibility
  | BelowRegion : Visibility
deriving DecidableEq, Repr

/-- Model of the `ScrollableRegion` struct: `termHeight` stands for the
value returned by the shared terminal's `height()`, the other two fields
are the struct's own `usize` fields. -/
structure ScrollableRegion where
  termHeight : Nat
  line_offset : Nat
  wrapped_line_count : Nat
deriving DecidableEq, Repr

namespace ScrollableRegion

/-- Model of `ScrollableRegion::new`: `line_offset = 0`,
`wrapped_line_count = 0`, bound to a terminal of height `termHeight`. -/
def new (termHeight : Nat) : ScrollableRegion :=
  { termHeight := termHeight, line_offset := 0, wrapped_line_count := 0 }

/-- Model of `ScrollableRegion::height`:
`terminal.height().checked_sub(wrapped_line_count + 1).unwrap_or(0)`. -/
def height (s : ScrollableRegion) : Nat :=
  (checked_sub s.termHeight (s.wrapped_line_count + 1)).getD 0

/-- Model of `ScrollableRegion::visible_range`:
`LineRange::new(line_offset, height() + line_offset)`. -/
def visible_range (s : ScrollableRegion) : LineRange :=
  LineRange.new s.line_offset (s.height + s.line_offset)

/-- Model of `ScrollableRegion::scroll_into_view`.  The subtraction
`line - self.height() + 1` in the second branch is plain `usize`
subtraction in Rust; there `line ≥ range.end() ≥ height()`, so `Nat`
subtraction coincides with it. -/
def scroll_into_view (s : ScrollableRegion) (line : Nat) : ScrollableRegion :=
  let range := s.visible_range
  if line < range.start then
    { s with line_offset := line }
  else if line ≥ range.«end» then
    { s with line_offset := line - s.height + 1 }
  else
    s

/-- Model of `ScrollableRegion::scroll_to_center`:
`line.checked_sub(self.height() / 2).unwrap_or(0)`. -/
def scroll_to_center (s : ScrollableRegion) (line : Nat) : ScrollableRegion :=
  { s with line_offset := (checked_sub line (s.height / 2)).getD 0 }

/-- Model of `ScrollableRegion::relative_position`. -/
def relative_position (s : ScrollableRegion) (line : Nat) : Visibility :=
  match checked_sub line s.line_offset with
  | some rel =>
      if rel ≥ s.height then Visibility.BelowRegion else Visibility.Visible rel
  | none => Visibility.AboveRegion

/-- Model of `ScrollableRegion::scroll_up`:
`checked_sub` saturating to 0 on underflow. -/
def scroll_up (s : ScrollableRegion) (amount : Nat) : ScrollableRegion :=
  { s with line_offset := (checked_sub s.line_offset amount).getD 0 }

/-- Model of `ScrollableRegion::scroll_down`: `line_offset += amount`. -/
def scroll_down (s : ScrollableRegion) (amount : Nat) : ScrollableRegion :=
  { s with line_offset := s.line_offset + amount }

/-- Model of `ScrollableRegion::set_wrapped_line_count`. -/
def set_wrapped_line_count (s : ScrollableRegion) (count : Nat) : ScrollableRegion :=
  { s with wrapped_line_count := count }

end ScrollableRegion

/-- One public mutating operation of the viewport, used to talk about
states reachable from a fresh region by a sequence of operations. -/
inductive Op where
  | scrollIntoView : Nat → Op
  | scrollToCenter : Nat → Op
  | scrollUp : Nat → Op
  | scrollDown : Nat → Op
  | setWrappedLineCount : Nat → Op
deriving DecidableEq, Repr

/-- Apply one operation to a viewport state. -/
def applyOp (s : ScrollableRegion) : Op → ScrollableRegion
  | Op.scrollIntoView n => s.scroll_into_view n
  | Op.scrollToCenter n => s.scroll_to_center n
  | Op.scrollUp n => s.scroll_up n
  | Op.scrollDown n => s.scroll_down n
  | Op.setWrappedLineCount n => s.set_wrapped_line_count n

/-! ## Basic lemmas about the embedded operations -/

/-- Rust's `checked_sub(y).unwrap_or(0)` is truncated subtraction on `Nat`. -/
lemma checked_sub_getD (x y : Nat) : (checked_sub x y).getD 0 = x - y := by
  unfold checked_sub
  split
  · simp
  · simp only [Option.getD_none]
    omega

namespace ScrollableRegion

lemma height_eq (s : ScrollableRegion) :
    s.height = s.termHeight - (s.wrapped_line_count + 1) := by
  unfold height
  exact checked_sub_getD _ _

lemma visible_range_start (s : ScrollableRegion) :
    s.visible_range.start = s.line_offset := rfl

lemma visible_range_stop (s : ScrollableRegion) :
    s.visible_range.«end» = s.line_offset + s.height := by
  simp [visible_range, LineRange.new, Nat.add_comm]

lemma height_scroll_into_view (s : ScrollableRegion) (line : Nat) :
    (s.scroll_into_view line).height = s.height := by
  unfold scroll_into_view
  simp only [visible_range, LineRange.new]
  split_ifs <;> rfl

lemma scroll_into_view_line_offset (s : ScrollableRegion) (line : Nat) :
    (s.scroll_into_view line).line_offset =
      if line < s.line_offset then line
      else if line ≥ s.height + s.line_offset then line - s.height + 1
      else s.line_offset := by
  unfold scroll_into_view
  simp only [visible_range, LineRange.new]
  split_ifs <;> rfl

lemma scroll_into_view_bounds (s : ScrollableRegion) (line : Nat)
    (h : 0 < s.height) :
    (s.scroll_into_view line).line_offset ≤ line ∧
      line < (s.scroll_into_view line).line_offset + s.height := by
  rw [scroll_into_view_line_offset]
  split_ifs with h₁ h₂ <;> constructor <;> omega

lemma relative_position_above (s : ScrollableRegion) (line : Nat)
    (h : line < s.line_offset) :
    s.relative_position line = Visibility.AboveRegion := by
  have h' : ¬ s.line_offset ≤ line := by omega
  simp [relative_position, checked_sub, h']

lemma relative_position_visible (s : ScrollableRegion) (line : Nat)
    (h₁ : s.line_offset ≤ line) (h₂ : line < s.line_offset + s.height) :
    s.relative_position line = Visibility.Visible (line - s.line_offset) := by
  have h₃ : ¬ s.height ≤ line - s.line_offset := by omega
  simp [relative_position, checked_sub, h₁, h₃]

lemma relative_position_below (s : ScrollableRegion) (line : Nat)
    (h : s.line_offset + s.height ≤ line) :
    s.relative_position line = Visibility.BelowRegion := by
  have h₁ : s.line_offset ≤ line := by omega
  have h₂ : s.height ≤ line - s.line_offset := by omega
  simp [relative_position, checked_sub, h₁, h₂]

lemma foldl_scroll_up_zero (l : List Nat) (s : ScrollableRegion)
    (h : s.line_offset = 0) : (l.foldl scroll_up s).line_offset = 0 := by
  induction l generalizing s with
  | nil => exact h
  | cons a l ih =>
      apply ih
      simp [scroll_up, checked_sub_getD, h]

end ScrollableRegion

/-! ## Claims -/

open ScrollableRegion

/-- Claim C1, counterexample.  On a zero-height region (`termHeight = 0`)
with `line_offset = 0`, `scroll_into_view 0` sets `line_offset` to `1`,
after which `relative_position 0` is `AboveRegion`, not `Visible _`:
the claimed postcondition fails for this state and line. -/
theorem C1_counterexample :
    ((ScrollableRegion.mk 0 0 0).scroll_into_view 0).relative_position 0 =
      Visibility.AboveRegion := by decide

/-- Claim C1, amended: for every viewport state whose `height()` is
positive and every line, after `scroll_into_view line` the line is
classified `Visible k` for some `k` by `relative_position`; and in every
state (no restriction) the call leaves `height()` unchanged. -/
theorem C1_scroll_into_view_makes_visible (s : ScrollableRegion) (line : Nat) :
    (0 < s.height →
      ∃ k, (s.scroll_into_view line).relative_position line =
        Visibility.Visible k) ∧
    (s.scroll_into_view line).height = s.height := by
  constructor
  · intro h
    obtain ⟨h₁, h₂⟩ := scroll_into_view_bounds s line h
    refine ⟨line - (s.scroll_into_view line).line_offset, ?_⟩
    exact relative_position_visible _ line h₁
      (by rw [height_scroll_into_view]; omega)
  · exact height_scroll_into_view s line

/-- Claim C1, witness at `termHeight = 10`, `line_offset = 10`,
`wrapped_line_count = 0` (so `height() = 9`) and `line = 40`. -/
theorem C1_witness :
    (∃ k, ((ScrollableRegion.mk 10 10 0).scroll_into_view 40).relative_position
        40 = Visibility.Visible k) ∧
    ((ScrollableRegion.mk 10 10 0).scroll_into_view 40).height =
      (ScrollableRegion.mk 10 10 0).height :=
  ⟨(C1_scroll_into_view_makes_visible (ScrollableRegion.mk 10 10 0) 40).1
      (by decide),
    (C1_scroll_into_view_makes_visible (ScrollableRegion.mk 10 10 0) 40).2⟩

/-- Claim C2: for every state, `height()` equals
`max(0, terminal.height() − wrapped_line_count − 1)`; the saturating
subtraction never fails. -/
theorem C2_height_formula (s : ScrollableRegion) :
    (s.height : ℤ) = max 0 ((s.termHeight : ℤ) - s.wrapped_line_count - 1) := by
  rw [height_eq]
  omega

/-- Claim C3, counterexample.  On a zero-height region with
`line_offset = 0`, the line `0` equals `line_offset` yet
`relative_position 0` is `BelowRegion`, not `Visible 0`: the conjunct
"a line equal to line_offset always yields Visible(0)" fails. -/
theorem C3_counterexample :
    (ScrollableRegion.mk 0 0 0).relative_position 0 =
      Visibility.BelowRegion := by decide

/-- Claim C3, amended: `relative_position` classifies every line by
trichotomy — `Visible k` for lines `line_offset + k` with `k < height()`,
`AboveRegion` below `line_offset`, `BelowRegion` at or past
`line_offset + height()` — and a line equal to `line_offset` yields
`Visible 0` whenever `height()` is positive (not in every state: with
`height() = 0` that line is classified `BelowRegion`). -/
theorem C3_relative_position_trichotomy (s : ScrollableRegion) :
    (∀ k, k < s.height →
      s.relative_position (s.line_offset + k) = Visibility.Visible k) ∧
    (∀ line, line < s.line_offset →
      s.relative_position line = Visibility.AboveRegion) ∧
    (∀ line, s.line_offset + s.height ≤ line →
      s.relative_position line = Visibility.BelowRegion) ∧
    (0 < s.height → s.relative_position s.line_offset = Visibility.Visible 0) := by
  refine ⟨?_, ?_, ?_, ?_⟩
  · intro k hk
    have := relative_position_visible s (s.line_offset + k)
      (by omega) (by omega)
    simpa using this
  · intro line hl
    exact relative_position_above s line hl
  · intro line hl
    exact relative_position_below s line hl
  · intro h
    have := relative_position_visible s s.line_offset (by omega) (by omega)
    simpa using this

/-- Claim C3, witness at `termHeight = 10`, `line_offset = 3`,
`wrapped_line_count = 0` (so `height() = 9`), exercising all four
conjuncts at concrete lines. -/
theorem C3_witness :
    (ScrollableRegion.mk 10 3 0).relative_position (3 + 2) =
      Visibility.Visible 2 ∧
    (ScrollableRegion.mk 10 3 0).relative_position 1 =
      Visibility.AboveRegion ∧
    (ScrollableRegion.mk 10 3 0).relative_position 20 =
      Visibility.BelowRegion ∧
    (ScrollableRegion.mk 10 3 0).relative_position 3 =
      Visibility.Visible 0 := by
  obtain ⟨h₁, h₂, h₃, h₄⟩ :=
    C3_relative_position_trichotomy (ScrollableRegion.mk 10 3 0)
  exact ⟨h₁ 2 (by decide), h₂ 1 (by decide), h₃ 20 (by decide),
    h₄ (by decide)⟩

/-- Claim C4: `scroll_to_center line` sets `line_offset` to
`max(0, line − height()/2)` with floor integer division, clamping a
would-be-negative result to 0. -/
theorem C4_scroll_to_center (s : ScrollableRegion) (line : Nat) :
    ((s.scroll_to_center line).line_offset : ℤ) =
      max 0 ((line : ℤ) - (s.height : ℤ) / 2) := by
  simp only [scroll_to_center, checked_sub_getD]
  omega

/-- Claim C5: `scroll_up amount` sets `line_offset` to
`max(0, line_offset − amount)` — saturating, never negative (it is a
`Nat`) — and any sequence of `scroll_up` calls starting from
`line_offset = 0` leaves it at 0. -/
theorem C5_scroll_up_saturates (s : ScrollableRegion) (amount : Nat) :
    ((s.scroll_up amount).line_offset : ℤ) =
      max 0 ((s.line_offset : ℤ) - amount) ∧
    (s.line_offset = 0 →
      ∀ l : List Nat, (l.foldl ScrollableRegion.scroll_up s).line_offset = 0) := by
  constructor
  · simp only [scroll_up, checked_sub_getD]
    omega
  · intro h l
    exact foldl_scroll_up_zero l s h

/-- Claim C5, witness: from `line_offset = 0` with `termHeight = 10`,
`scroll_up 5` stays at `max 0 (0 − 5) = 0`, and scrolling up by 3 then 4
stays at 0. -/
theorem C5_witness :
    (((ScrollableRegion.mk 10 0 0).scroll_up 5).line_offset : ℤ) =
      max 0 (((ScrollableRegion.mk 10 0 0).line_offset : ℤ) - 5) ∧
    (([3, 4].foldl ScrollableRegion.scroll_up
        (ScrollableRegion.mk 10 0 0)).line_offset = 0) :=
  ⟨(C5_scroll_up_saturates (ScrollableRegion.mk 10 0 0) 5).1,
    (C5_scroll_up_saturates (ScrollableRegion.mk 10 0 0) 5).2 rfl [3, 4]⟩

/-- Claim C6: in every state reachable from a fresh viewport
(`ScrollableRegion.new h₀`) by any sequence of operations,
`visible_range()` is the half-open interval
`[line_offset(), line_offset() + height())`. -/
theorem C6_visible_range_invariant (h₀ : Nat) (ops : List Op) :
    ((ops.foldl applyOp (ScrollableRegion.new h₀)).visible_range).start =
      (ops.foldl applyOp (ScrollableRegion.new h₀)).line_offset ∧
    ((ops.foldl applyOp (ScrollableRegion.new h₀)).visible_range).«end» =
      (ops.foldl applyOp (ScrollableRegion.new h₀)).line_offset +
        (ops.foldl applyOp (ScrollableRegion.new h₀)).height :=
  ⟨visible_range_start _, visible_range_stop _⟩

/-- Claim C7: no operation fails.  `scroll_down amount` always sets
`line_offset` to `line_offset + amount` (unbounded above), and
`height()` is defined (by the saturating-subtraction formula) for every
stored `wrapped_line_count`. -/
theorem C7_total_operations (s : ScrollableRegion) (amount w : Nat) :
    (s.scroll_down amount).line_offset = s.line_offset + amount ∧
    ((s.set_wrapped_line_count w).height : ℤ) =
      max 0 ((s.termHeight : ℤ) - w - 1) := by
  constructor
  · rfl
  · rw [height_eq]
    simp only [set_wrapped_line_count]
    omega

/-- Claim C8, counterexample.  On a zero-height region, `scroll_into_view`
is not idempotent: from `termHeight = 0`, `line_offset = 0`, the first
`scroll_into_view 0` yields `line_offset = 1`, the second
`scroll_into_view 0` yields `line_offset = 0`. -/
theorem C8_counterexample :
    (((ScrollableRegion.mk 0 0 0).scroll_into_view 0).scroll_into_view
        0).line_offset ≠
      ((ScrollableRegion.mk 0 0 0).scroll_into_view 0).line_offset := by decide

/-- Claim C8, amended: whenever `height()` is positive, `scroll_into_view`
is idempotent — applying it twice with the same line yields the same
`line_offset` as applying it once. -/
theorem C8_scroll_into_view_idempotent (s : ScrollableRegion) (line : Nat)
    (h : 0 < s.height) :
    (((s.scroll_into_view line).scroll_into_view line)).line_offset =
      (s.scroll_into_view line).line_offset := by
  obtain ⟨h₁, h₂⟩ := scroll_into_view_bounds s line h
  rw [scroll_into_view_line_offset (s.scroll_into_view line) line]
  rw [height_scroll_into_view]
  split_ifs <;> omega

/-- Claim C8, witness at `termHeight = 10`, `line_offset = 10`,
`wrapped_line_count = 0`, `line = 40`. -/
theorem C8_witness :
    ((((ScrollableRegion.mk 10 10 0).scroll_into_view 40).scroll_into_view
        40)).line_offset =
      ((ScrollableRegion.mk 10 10 0).scroll_into_view 40).line_offset :=
  C8_scroll_into_view_idempotent (ScrollableRegion.mk 10 10 0) 40 (by decide)

/-- Claim C9, counterexample.  With `height() = 0` but `line_offset = 5`,
the line `2` does NOT satisfy the second branch: `2 < visible_range().start`
takes the first branch instead, and the resulting `line_offset` is `2`,
not `2 + 1`. -/
theorem C9_counterexample :
    (ScrollableRegion.mk 0 5 0).height = 0 ∧
    ((ScrollableRegion.mk 0 5 0).scroll_into_view 2).line_offset ≠ 2 + 1 := by
  decide

/-- Claim C9, amended: whenever `height() = 0` and
`line ≥ visible_range().end` (equivalently `line ≥ line_offset`, since the
range is empty), `scroll_into_view line` takes the second branch and the
resulting `line_offset` is `line + 1`; lines below `line_offset` take the
first branch instead. -/
theorem C9_zero_height_scroll (s : ScrollableRegion) (line : Nat)
    (h0 : s.height = 0) (hl : s.visible_range.«end» ≤ line) :
    (s.scroll_into_view line).line_offset = line + 1 := by
  rw [visible_range_stop, h0] at hl
  rw [scroll_into_view_line_offset, h0]
  split_ifs <;> omega

/-- Claim C9, witness: a fresh zero-height region (`termHeight = 0`) and
`line = 7`. -/
theorem C9_witness :
    ((ScrollableRegion.mk 0 0 0).scroll_into_view 7).line_offset = 7 + 1 :=
  C9_zero_height_scroll (ScrollableRegion.mk 0 0 0) 7 (by decide) (by decide)

/-- Claim C10: `scroll_down a` then `scroll_up a` always restores the
original `line_offset`; the reverse order does not restore it whenever
`a > line_offset` (the saturation in `scroll_up` loses the excess). -/
theorem C10_scroll_down_up (s : ScrollableRegion) (a : Nat) :
    ((s.scroll_down a).scroll_up a).line_offset = s.line_offset ∧
    (s.line_offset < a →
      ((s.scroll_up a).scroll_down a).line_offset ≠ s.line_offset) := by
  simp only [scroll_down, scroll_up, checked_sub_getD]
  constructor
  · omega
  · intro h
    omega

/-- Claim C10, witness at `line_offset = 3`, amount `5`. -/
theorem C10_witness :
    (((ScrollableRegion.mk 10 3 0).scroll_down 5).scroll_up 5).line_offset =
      (ScrollableRegion.mk 10 3 0).line_offset ∧
    (((ScrollableRegion.mk 10 3 0).scroll_up 5).scroll_down 5).line_offset ≠
      (ScrollableRegion.mk 10 3 0).line_offset :=
  ⟨(C10_scroll_down_up (ScrollableRegion.mk 10 3 0) 5).1,
    (C10_scroll_down_up (ScrollableRegion.mk 10 3 0) 5).2 (by decide)⟩
